import Mathlib

/-!
Verification development for `src/src/libs/jpegdec/lv_jpegdec.c` (the LVGL
JPEGDEC decoder glue).  The file shallowly embeds the two non-trivial parts of
that source:

* `decoder_info` (lines 175-260): the baseline-JPEG header scanner that walks
  marker segments in 32-byte windows looking for the SOF0 marker and extracts
  width / height / bits-per-pixel, plus its file-handle discipline;
* `decoder_get_area` (lines 59-151): the tile-decode orchestrator that aligns a
  requested rectangle to MCU boundaries, manages the decoded buffer, invokes
  the opaque JPEGDEC decode pass, and signals completion;
* `decoder_close` (lines 361-375): resource release.

Byte streams are modelled as total functions `Nat → Nat`; every access is
reduced `% 256`, mirroring the `uint8_t` buffers of the C code.  The opaque
collaborators (`lv_malloc`, `JPEG_decode`, `lv_fs_open`) are modelled by
boolean success inputs, and the side effects the claims talk about (allocation,
decode passes, frees, file close) are recorded as explicit events.
-/

/-! ## Common data model -/

/-- The three LVGL color formats this decoder can report
(`LV_COLOR_FORMAT_L8`, `LV_COLOR_FORMAT_RGB565`, `LV_COLOR_FORMAT_ARGB8888`). -/
inductive ColorFormat where
  | L8
  | RGB565
  | ARGB8888
deriving DecidableEq, Repr

/-- `lv_image_header_t` as filled in by `decoder_info` (lines 247-255). -/
structure Header where
  w : Nat
  h : Nat
  cf : ColorFormat
  stride : Nat
deriving DecidableEq, Repr

/-- Window access: `cBuf[k]` where the 32-byte window was filled starting at
absolute stream offset `ws`.  The `% 256` models the `uint8_t` elements. -/
def win (data : Nat → Nat) (ws k : Nat) : Nat := data (ws + k) % 256

/-- `MOTOSHORT(&b[i])`: big-endian 16-bit read `(b[i] << 8) | b[i+1]`
(the two bytes occupy disjoint bit ranges, so `|` is `+`). -/
def motoshort (b : Nat → Nat) (i : Nat) : Nat := b i * 256 + b (i + 1)

/-- `x & 0xfffc` for a 16-bit `x`: clear the low two bits, i.e. drop `x % 4`. -/
def maskFFFC (x : Nat) : Nat := x - x % 4

/-- The loop state of the marker scan in `decoder_info` (lines 209-228):
`i` is the in-window cursor, `j` the absolute stream offset used for marker
skipping, `ws` the absolute offset the current 32-byte window was read from,
and `m` the last value of the C variable `iMarker` (always masked). -/
structure ScanSt where
  i : Nat
  j : Nat
  ws : Nat
  m : Nat
deriving DecidableEq, Repr

/-- The marker-scan `while` loop of `decoder_info` (lines 209-228), with an
explicit fuel so the definition is structurally recursive; `none` means the
fuel ran out.  `j` and `iFileSize` are `uint32_t` in the C (lines 181, 184),
so the skip accumulates the offset modulo `2^32`: `j += 2 + MOTOSHORT(...)`
wraps, modelled by `% 4294967296` (`size`, a `uint32_t` value, is below that
modulus and needs no reduction).

```
while(i < 32 && iMarker != 0xffc0 && j < iFileSize) {
    iMarker = MOTOSHORT(&cBuf[i]) & 0xfffc;
    if(iMarker < 0xff00) { i += 2; continue; }
    if(iMarker == 0xffc0) break;
    j += 2 + MOTOSHORT(&cBuf[i + 2]);
    if(j < iFileSize) { refill window at j; i = 0; }
}
```
-/
def scanLoop (data : Nat → Nat) (size : Nat) :
    Nat → Nat → Nat → Nat → Nat → Option ScanSt
  | 0, _, _, _, _ => none
  | fuel + 1, i, j, ws, m =>
    if i < 32 ∧ m ≠ 0xffc0 ∧ j < size then
      let mk := maskFFFC (motoshort (win data ws) i)
      if mk < 0xff00 then
        -- invalid marker: skip 2 bytes and try to resync (lines 211-214)
        scanLoop data size fuel (i + 2) j ws mk
      else if mk = 0xffc0 then
        -- the one we're looking for (lines 215-216)
        some ⟨i, j, ws, mk⟩
      else
        -- skip to next marker (lines 217-227); uint32_t addition wraps
        let j2 := (j + 2 + motoshort (win data ws) (i + 2)) % 4294967296
        if j2 < size then
          scanLoop data size fuel 0 j2 j2 mk
        else
          scanLoop data size fuel i j2 ws mk
    else
      some ⟨i, j, ws, m⟩

/-- Fuel that the termination theorem proves sufficient for any start state of
`decoder_info` (which starts at `i = 2`, `j = 2`). -/
def scanFuel (size : Nat) : Nat := 17 * size + 34

/-- The color-format selection of `decoder_info` (lines 247-252), a pure
function of the effective bits-per-pixel and `LV_COLOR_DEPTH`:

```
if(iBpp == 8 || LV_COLOR_DEPTH == 8)      header->cf = LV_COLOR_FORMAT_L8;
else if(LV_COLOR_DEPTH == 16)             header->cf = LV_COLOR_FORMAT_RGB565;
else                                      header->cf = LV_COLOR_FORMAT_ARGB8888;
```
-/
def formatOf (iBpp depth : Nat) : ColorFormat :=
  if iBpp = 8 ∨ depth = 8 then ColorFormat.L8
  else if depth = 16 then ColorFormat.RGB565
  else ColorFormat.ARGB8888

/-- Everything `decoder_info` does after the SOI check (lines 209-257): run the
marker scan, reject if the (masked) marker found is not SOF0, parse the SOF
payload, reject non-baseline variants via the unmasked re-read (lines 241-245),
and build the header.  `none` models `LV_RESULT_INVALID`. -/
def infoAfterSOI (data : Nat → Nat) (size depth : Nat) : Option Header :=
  match scanLoop data size (scanFuel size) 2 2 0 0 with
  | none => none
  | some st =>
    if st.m = 0xffc0 then
      let cb := win data st.ws
      let iBpp0 := cb (st.i + 4)            -- bits per sample (line 236)
      let h := motoshort cb (st.i + 5)      -- height, big-endian (line 237)
      let w := motoshort cb (st.i + 7)      -- width, big-endian (line 238)
      let iBpp := iBpp0 * cb (st.i + 9)     -- components * bits/sample (line 239)
      if motoshort cb st.i = 0xffc0 then    -- only baseline (lines 241-245)
        some { w := w, h := h, cf := formatOf iBpp depth,
               stride := w * (depth / 8) }
      else none
    else none

/-- `decoder_info` for an in-memory source (`LV_IMAGE_SRC_VARIABLE`):
the SOI check `cBuf[0] == 0xff && cBuf[1] == 0xd8` (line 208) followed by the
scan; `none` models `LV_RESULT_INVALID`. -/
def decoder_info_mem (data : Nat → Nat) (size depth : Nat) : Option Header :=
  if win data 0 0 = 0xff ∧ win data 0 1 = 0xd8 then
    infoAfterSOI data size depth
  else none

/-- Outcome of `decoder_info` on a file source, tracking the `lv_fs_file_t`
handle: `opened` records that `lv_fs_open` succeeded, `closed` that
`lv_fs_close` was called before returning. -/
structure FileOutcome where
  result : Option Header
  opened : Bool
  closed : Bool
deriving DecidableEq, Repr

/-- `decoder_info` for a file source (lines 189-202 plus 208-259).  The file
reads are byte-identical to the in-memory case; the only `lv_fs_close` call
sits at lines 229-231, inside the `if(cBuf[0] == 0xff && cBuf[1] == 0xd8)`
branch, so the final `return LV_RESULT_INVALID` (line 259) taken when the
first two bytes are not the SOI marker leaves the handle open. -/
def decoder_info_file (data : Nat → Nat) (size depth : Nat) (openOk : Bool) :
    FileOutcome :=
  if openOk then
    if win data 0 0 = 0xff ∧ win data 0 1 = 0xd8 then
      { result := infoAfterSOI data size depth, opened := true, closed := true }
    else
      { result := none, opened := true, closed := false }
  else
    { result := none, opened := false, closed := false }

/-! ## Tile-decode orchestrator (`decoder_get_area`, lines 59-151) -/

/-- Modelled from the spec: the LVGL sentinel `LV_COORD_MIN` (defined in the
host headers, not under `src/`) that marks a `decoded_area` no call has written
yet — the spec's "Pending" state.  Only the fact that it is negative (hence
distinct from every MCU-aligned coordinate of a non-negative request) is used. -/
def LV_COORD_MIN : Int := -535870911

/-- `lv_area_t`: inclusive pixel rectangle with `int32_t` coordinates. -/
structure Area where
  x1 : Int
  y1 : Int
  x2 : Int
  y2 : Int
deriving DecidableEq, Repr

/-- `outer` contains `inner` (both rectangles with inclusive edges). -/
def containsArea (outer inner : Area) : Prop :=
  outer.x1 ≤ inner.x1 ∧ outer.y1 ≤ inner.y1 ∧
  inner.x2 ≤ outer.x2 ∧ inner.y2 ≤ outer.y2

instance (outer inner : Area) : Decidable (containsArea outer inner) := by
  unfold containsArea; infer_instance

/-- The MCU pixel extents chosen by the `switch (jpg->ucSubSample)` of
`decoder_get_area` (lines 66-77): start from 8x8, then
`0x21 → 16x8`, `0x12 → 8x16`, `0x22 → 16x16`; every other code
(including `0x11`) keeps the 8x8 default. -/
def mcuExtents (sub : Nat) : Int × Int :=
  if sub = 0x21 then (16, 8)
  else if sub = 0x12 then (8, 16)
  else if sub = 0x22 then (16, 16)
  else (8, 8)

/-- `a & ~(m-1)` for a power-of-two `m` on a two's-complement `int32_t`:
clearing the low bits floors `a` to a multiple of `m`, which is exactly
floor division (`Int` `/` is Euclidean division) times `m`. -/
def alignDown (a m : Int) : Int := a / m * m

/-- `((a + m - 1) & ~(m-1)) - 1` as computed for `x2`/`y2` (lines 83-84). -/
def alignUpEdge (a m : Int) : Int := (a + m - 1) / m * m - 1

/-- The MCU-aligned rectangle of lines 81-84:
```
decoded_area->x1 = full_area->x1 & ~(iMCUCX-1);
decoded_area->y1 = full_area->y1 & ~(iMCUCY-1);
decoded_area->x2 = ((full_area->x2 + iMCUCX-1) & ~(iMCUCX-1)) - 1;
decoded_area->y2 = ((full_area->y2 + iMCUCY-1) & ~(iMCUCY-1)) - 1;
```
-/
def alignArea (mxy : Int × Int) (full : Area) : Area :=
  { x1 := alignDown full.x1 mxy.1
    y1 := alignDown full.y1 mxy.2
    x2 := alignUpEdge full.x2 mxy.1
    y2 := alignUpEdge full.y2 mxy.2 }

/-- The JPEGDEC pixel types selected at lines 115-123. -/
inductive PixelType where
  | rgb8888
  | rgb565LittleEndian
  | eightBitGrayscale
  | unset
deriving DecidableEq, Repr

/-- The fields of the `JPEGIMAGE` decoder state that `decoder_get_area`
touches: the subsampling code it reads and the pixel type / crop rectangle it
writes (lines 115-131). -/
structure JpgState where
  ucSubSample : Nat
  ucPixelType : PixelType
  iCropX : Int
  iCropY : Int
  iCropCX : Int
  iCropCY : Int
deriving DecidableEq, Repr

/-- The header embedded in an `lv_draw_buf_t` (`decoded->header`). -/
structure BufHeader where
  w : Int
  h : Int
  stride : Int
  cf : ColorFormat
deriving DecidableEq, Repr

/-- `lv_draw_buf_t` as used here; `dataFreed` models whether the
`decoded->data` pixel buffer has been `lv_free`d (so a surviving structure
with `dataFreed = true` is a dangling partial region). -/
structure DrawBuf where
  header : BufHeader
  data_size : Int
  dataFreed : Bool
deriving DecidableEq, Repr

/-- The observable effects of one `decoder_get_area` call: structure
allocation (line 94), pixel-buffer allocation (line 101), the `JPEG_decode`
pass (line 132), and the frees on the two failure paths (lines 105, 134). -/
inductive Ev where
  | allocStruct
  | allocData
  | decode
  | freeData
  | freeStruct
deriving DecidableEq, Repr

/-- Input state of one `decoder_get_area` call.  The opaque collaborators
(`lv_malloc_zeroed`, `lv_malloc`, `JPEG_decode`) are modelled by the three
success booleans; `depth` is the compile-time `LV_COLOR_DEPTH`. -/
structure GAIn where
  jpg : JpgState
  dscDecoded : Option DrawBuf
  dscHeader : BufHeader
  fullArea : Area
  decodedArea : Area
  allocStructOk : Bool
  allocDataOk : Bool
  decodeOk : Bool
  depth : Nat
deriving DecidableEq, Repr

/-- Output state of one `decoder_get_area` call; `ok = true` models
`LV_RESULT_OK`, `ok = false` models `LV_RESULT_INVALID`. -/
structure GAOut where
  ok : Bool
  jpg : JpgState
  dscDecoded : Option DrawBuf
  decodedArea : Area
  events : List Ev
deriving DecidableEq, Repr

/-- Lines 110-150 of `decoder_get_area`: update `decoded->header`, configure
the decoder's pixel type and crop rectangle, run `JPEG_decode`, and either
tag the color format on success or free `decoded->data` on failure (leaving
`dsc->decoded` pointing at the structure and `decoded_area` already written). -/
def getAreaDecodePass (s : GAIn) (da : Area) (w h : Int) (buf : DrawBuf)
    (evs : List Ev) (iBPP : Int) : GAOut :=
  let buf1 : DrawBuf :=
    { buf with header := { buf.header with w := w, h := h, stride := w * iBPP } }
  let jpg1 : JpgState :=
    { s.jpg with
      ucPixelType :=
        if iBPP = 4 then PixelType.rgb8888
        else if iBPP = 2 then PixelType.rgb565LittleEndian
        else PixelType.eightBitGrayscale
      iCropX := da.x1, iCropY := da.y1, iCropCX := w, iCropCY := h }
  if s.decodeOk then
    let buf2 : DrawBuf :=
      { buf1 with header := { buf1.header with
          cf := if iBPP = 4 then ColorFormat.ARGB8888
                else if iBPP = 2 then ColorFormat.RGB565
                else ColorFormat.L8 } }
    { ok := true, jpg := jpg1, dscDecoded := some buf2, decodedArea := da,
      events := evs ++ [Ev.decode] }
  else
    -- lines 133-136: lv_free(decoded->data); return LV_RESULT_INVALID;
    { ok := false, jpg := jpg1, dscDecoded := some { buf1 with dataFreed := true },
      decodedArea := da, events := evs ++ [Ev.decode, Ev.freeData] }

/-- `decoder_get_area` (lines 59-151).  First call (`decoded_area->y1 ==
LV_COORD_MIN`): compute the MCU-aligned rectangle, allocate the decoded
structure and pixel buffer if `dsc->decoded` is still `NULL`, and run one
decode pass.  Any later call returns `LV_RESULT_INVALID` immediately
(lines 85-89) to signal that the work is finished. -/
def decoder_get_area (s : GAIn) : GAOut :=
  let iBPP : Int := (s.depth / 8 : Nat)
  let mxy := mcuExtents s.jpg.ucSubSample
  if s.decodedArea.y1 = LV_COORD_MIN then
    let da := alignArea mxy s.fullArea
    let w : Int := da.x2 - da.x1 + 1
    let h : Int := da.y2 - da.y1 + 1
    match s.dscDecoded with
    | none =>
      if s.allocStructOk then
        if s.allocDataOk then
          getAreaDecodePass s da w h
            { header := s.dscHeader, data_size := iBPP * w * h, dataFreed := false }
            [Ev.allocStruct, Ev.allocData] iBPP
        else
          -- lines 103-108: lv_free(decoded); dsc->decoded = NULL;
          { ok := false, jpg := s.jpg, dscDecoded := none, decodedArea := da,
            events := [Ev.allocStruct, Ev.allocData, Ev.freeStruct] }
      else
        -- lines 95-98: allocation of the structure failed
        { ok := false, jpg := s.jpg, dscDecoded := none, decodedArea := da,
          events := [Ev.allocStruct] }
    | some buf => getAreaDecodePass s da w h buf [] iBPP
  else
    -- lines 85-89: called again; tell LVGL we finished
    { ok := false, jpg := s.jpg, dscDecoded := s.dscDecoded,
      decodedArea := s.decodedArea, events := [] }

/-! ## `decoder_close` (lines 361-375) -/

/-- The release effects of `decoder_close`: freeing the loaded JPEG file bytes
(`jpg->JPEGFile.pData`, line 366), freeing the `JPEGIMAGE` structure
(line 368), destroying the decoded draw buffer (line 372), or releasing the
cache entry (line 374). -/
inductive CEv where
  | freeFileData
  | freeJpg
  | destroyDecoded
  | cacheRelease
deriving DecidableEq, Repr

/-- State visible to `decoder_close`: whether `decoder->user_data` still holds
the `JPEGIMAGE`, the source type, the cache configuration, and whether
`dsc->decoded` is still set (the code never clears it). -/
structure CloseSt where
  userData : Bool
  srcIsFile : Bool
  noCache : Bool
  cacheDefSizeZero : Bool
  dscDecodedSet : Bool
deriving DecidableEq, Repr

/-- `decoder_close` (lines 361-375): the `if (decoder->user_data)` block frees
the loaded file bytes (file sources) and the `JPEGIMAGE` and nulls
`user_data`; then, unconditionally, either `lv_draw_buf_destroy(dsc->decoded)`
or `lv_cache_release` is invoked. -/
def decoder_close (s : CloseSt) : CloseSt × List CEv :=
  let s1 := if s.userData then { s with userData := false } else s
  let e1 : List CEv :=
    if s.userData then
      (if s.srcIsFile then [CEv.freeFileData] else []) ++ [CEv.freeJpg]
    else []
  let e2 : List CEv :=
    if s.noCache || s.cacheDefSizeZero then [CEv.destroyDecoded]
    else [CEv.cacheRelease]
  (s1, e1 ++ e2)

/-! ## Window-index instrumentation for the scan (claim about `cBuf` bounds) -/

/-- The same marker-scan loop as `scanLoop`, recording the window indices of
`cBuf` that each iteration reads: the marker code at `i`, `i+1` and, in the
skip branch, the length field at `i+2`, `i+3`. -/
def scanLoopReads (data : Nat → Nat) (size : Nat) :
    Nat → Nat → Nat → Nat → Nat → List Nat
  | 0, _, _, _, _ => []
  | fuel + 1, i, j, ws, m =>
    if i < 32 ∧ m ≠ 0xffc0 ∧ j < size then
      let mk := maskFFFC (motoshort (win data ws) i)
      if mk < 0xff00 then
        i :: (i + 1) :: scanLoopReads data size fuel (i + 2) j ws mk
      else if mk = 0xffc0 then
        [i, i + 1]
      else
        let j2 := (j + 2 + motoshort (win data ws) (i + 2)) % 4294967296
        i :: (i + 1) :: (i + 2) :: (i + 3) ::
          (if j2 < size then scanLoopReads data size fuel 0 j2 j2 mk
           else scanLoopReads data size fuel i j2 ws mk)
    else []

/-- All window indices `decoder_info` reads from `cBuf`: the SOI check at
`0`, `1` (line 208), the loop's reads, and — when the loop found a (masked)
SOF0 — the payload reads `i+4 … i+9` (lines 236-239) followed by the unmasked
marker re-read at `i`, `i+1` (line 241). -/
def infoWindowReads (data : Nat → Nat) (size : Nat) : List Nat :=
  0 :: 1 ::
    (if win data 0 0 = 0xff ∧ win data 0 1 = 0xd8 then
      scanLoopReads data size (scanFuel size) 2 2 0 0 ++
        (match scanLoop data size (scanFuel size) 2 2 0 0 with
         | none => []
         | some st =>
           if st.m = 0xffc0 then
             [st.i + 4, st.i + 5, st.i + 6, st.i + 7, st.i + 8, st.i + 9,
              st.i, st.i + 1]
           else [])
    else [])

/-! ## Helper lemmas -/

/-- The MCU extents are always 8 or 16 in each axis. -/
lemma mcuExtents_cases (c : Nat) :
    ((mcuExtents c).1 = 8 ∨ (mcuExtents c).1 = 16) ∧
    ((mcuExtents c).2 = 8 ∨ (mcuExtents c).2 = 16) := by
  unfold mcuExtents
  split
  · exact ⟨Or.inr rfl, Or.inl rfl⟩
  split
  · exact ⟨Or.inl rfl, Or.inr rfl⟩
  split
  · exact ⟨Or.inr rfl, Or.inr rfl⟩
  · exact ⟨Or.inl rfl, Or.inl rfl⟩

/-- On the first call (`decoded_area->y1 == LV_COORD_MIN`) every exit path of
`decoder_get_area` reports the MCU-aligned rectangle of lines 81-84 in
`decoded_area` (the rectangle is written before anything can fail). -/
lemma getArea_first_decodedArea (s : GAIn) (h : s.decodedArea.y1 = LV_COORD_MIN) :
    (decoder_get_area s).decodedArea =
      alignArea (mcuExtents s.jpg.ucSubSample) s.fullArea := by
  unfold decoder_get_area getAreaDecodePass
  rw [if_pos h]
  cases s.dscDecoded <;> cases s.allocStructOk <;> cases s.allocDataOk <;>
    cases s.decodeOk <;> simp

/-- For a request with non-negative `y1`, the aligned `y1` is non-negative,
hence distinct from the `LV_COORD_MIN` sentinel. -/
lemma alignArea_y1_ne_min (sub : Nat) (full : Area) (hy : 0 ≤ full.y1) :
    (alignArea (mcuExtents sub) full).y1 ≠ LV_COORD_MIN := by
  have hpos : 0 < (mcuExtents sub).2 := by
    rcases (mcuExtents_cases sub).2 with h | h <;> rw [h] <;> norm_num
  have h0 : 0 ≤ (alignArea (mcuExtents sub) full).y1 := by
    unfold alignArea alignDown
    exact mul_nonneg (Int.ediv_nonneg hy (le_of_lt hpos)) (le_of_lt hpos)
  intro hc
  rw [hc] at h0
  norm_num [LV_COORD_MIN] at h0

/-! ## Concrete inputs used by witnesses and counterexamples -/

/-- A `JPEGIMAGE` state for 1:1 subsampling with nothing configured yet. -/
def jpg11 : JpgState :=
  { ucSubSample := 0x11, ucPixelType := PixelType.unset,
    iCropX := 0, iCropY := 0, iCropCX := 0, iCropCY := 0 }

/-- A first-call `decoder_get_area` input: `decoded_area->y1 == LV_COORD_MIN`,
no buffer yet, all collaborators succeed. -/
def gaFirstCall (jpg : JpgState) (full : Area) (decodeOk : Bool) (depth : Nat) :
    GAIn :=
  { jpg := jpg
    dscDecoded := none
    dscHeader := { w := 0, h := 0, stride := 0, cf := ColorFormat.L8 }
    fullArea := full
    decodedArea := { x1 := 0, y1 := LV_COORD_MIN, x2 := 0, y2 := 0 }
    allocStructOk := true, allocDataOk := true, decodeOk := decodeOk
    depth := depth }

/-- C1 counterexample input: request `(0,0)-(8,8)` with 8x8 MCUs; the right
and bottom request edges sit exactly on an MCU multiple. -/
def c1in : GAIn := gaFirstCall jpg11 ⟨0, 0, 8, 8⟩ true 32

/-- C1 witness input: the spec's boundary scenario, subsampling `0x22` and
request `(0,0)-(69,49)`. -/
def c1win : GAIn :=
  gaFirstCall { jpg11 with ucSubSample := 0x22 } ⟨0, 0, 69, 49⟩ true 32

/-! ## Claim C1: MCU table and alignment of the first-call rectangle -/

/-- C1 counterexample: at the concrete first-call request `(0,0)-(8,8)` with
subsampling `0x11` (8x8 MCUs), `decoder_get_area` reports the decoded
rectangle `(0,0)-(7,7)`, which does **not** contain the requested rectangle:
`((x2 + 7) & ~7) - 1 = 7 < 8 = x2`.  So the claim's containment assertion is
false for requests whose inclusive `x2`/`y2` is an exact MCU multiple. -/
theorem c1_containment_counterexample :
    (decoder_get_area c1in).decodedArea = { x1 := 0, y1 := 0, x2 := 7, y2 := 7 } ∧
    ¬ containsArea (decoder_get_area c1in).decodedArea c1in.fullArea := by
  decide

/-- C1 (amended): on the first call, `decoder_get_area` derives the MCU
extents per the table (`0x11 → 8x8`, `0x21 → 16x8`, `0x12 → 8x16`,
`0x22 → 16x16`, anything else `8x8`); for every request with non-negative
coordinates the reported rectangle has MCU-multiple top-left coordinates and
MCU-multiple `x2+1` / `y2+1`, and — provided the requested `x2` and `y2` are
not themselves exact multiples of the MCU extents — it fully contains the
requested rectangle. -/
theorem c1_mcu_alignment (s : GAIn)
    (h0 : s.decodedArea.y1 = LV_COORD_MIN)
    (hx1 : 0 ≤ s.fullArea.x1) (hy1 : 0 ≤ s.fullArea.y1)
    (hx2n : 0 ≤ s.fullArea.x2) (hy2n : 0 ≤ s.fullArea.y2)
    (hx2 : s.fullArea.x2 % (mcuExtents s.jpg.ucSubSample).1 ≠ 0)
    (hy2 : s.fullArea.y2 % (mcuExtents s.jpg.ucSubSample).2 ≠ 0) :
    mcuExtents 0x11 = (8, 8) ∧ mcuExtents 0x21 = (16, 8) ∧
    mcuExtents 0x12 = (8, 16) ∧ mcuExtents 0x22 = (16, 16) ∧
    (∀ c, c ≠ 0x21 → c ≠ 0x12 → c ≠ 0x22 → mcuExtents c = (8, 8)) ∧
    containsArea (decoder_get_area s).decodedArea s.fullArea ∧
    (decoder_get_area s).decodedArea.x1 % (mcuExtents s.jpg.ucSubSample).1 = 0 ∧
    (decoder_get_area s).decodedArea.y1 % (mcuExtents s.jpg.ucSubSample).2 = 0 ∧
    ((decoder_get_area s).decodedArea.x2 + 1) % (mcuExtents s.jpg.ucSubSample).1 = 0 ∧
    ((decoder_get_area s).decodedArea.y2 + 1) % (mcuExtents s.jpg.ucSubSample).2 = 0 := by
  have hda := getArea_first_decodedArea s h0
  obtain ⟨hmx, hmy⟩ := mcuExtents_cases s.jpg.ucSubSample
  rw [hda]
  refine ⟨by decide, by decide, by decide, by decide,
    fun c h1 h2 h3 => by simp [mcuExtents, h1, h2, h3], ?_, ?_, ?_, ?_, ?_⟩ <;>
    rcases hmx with hmx | hmx <;> rcases hmy with hmy | hmy <;>
      simp only [alignArea, alignDown, alignUpEdge, containsArea, hmx, hmy] at hx2 hy2 ⊢ <;>
      omega

/-- C1 witness: the amended theorem at the spec's own boundary scenario
(subsampling `0x22`, request `(0,0)-(69,49)`): the decoded rectangle
`(0,0)-(79,63)` contains the request. -/
theorem c1_mcu_alignment_witness :
    containsArea (decoder_get_area c1win).decodedArea c1win.fullArea :=
  (c1_mcu_alignment c1win (by decide) (by decide) (by decide) (by decide)
    (by decide) (by decide) (by decide)).2.2.2.2.2.1

/-! ## Claim C3: one-shot completion -/

/-- C3: once a first `decoder_get_area` call on a non-negative request has
succeeded, any later call on the same handle — whatever its `full_area`,
buffer, or collaborator behaviour — hits the `decoded_area->y1 != LV_COORD_MIN`
branch (lines 85-89) and returns `LV_RESULT_INVALID` with no allocation, no
`JPEG_decode` pass, no free, and no change to `dsc->decoded`, the decoder
state, or the previously reported rectangle. -/
theorem c3_second_call_no_work (s s2 : GAIn)
    (h1 : s.decodedArea.y1 = LV_COORD_MIN)
    (hy : 0 ≤ s.fullArea.y1)
    (hok : (decoder_get_area s).ok = true)
    (harea : s2.decodedArea = (decoder_get_area s).decodedArea) :
    (decoder_get_area s2).ok = false ∧
    (decoder_get_area s2).events = [] ∧
    (decoder_get_area s2).dscDecoded = s2.dscDecoded ∧
    (decoder_get_area s2).decodedArea = s2.decodedArea ∧
    (decoder_get_area s2).jpg = s2.jpg := by
  have hne : s2.decodedArea.y1 ≠ LV_COORD_MIN := by
    rw [harea, getArea_first_decodedArea s h1]
    exact alignArea_y1_ne_min s.jpg.ucSubSample s.fullArea hy
  simp only [decoder_get_area]
  rw [if_neg hne]
  exact ⟨rfl, rfl, rfl, rfl, rfl⟩

/-- C3 input pair for the witness: a successful first call on `(0,0)-(7,7)`
with 8x8 MCUs, then a second call carrying the reported rectangle
`(0,0)-(7,7)` back in, now with a different request, a buffer present and a
failing decoder (which must not matter). -/
def c3in : GAIn := gaFirstCall jpg11 ⟨0, 0, 7, 7⟩ true 32

/-- Second-call state for the C3 witness. -/
def c3in2 : GAIn :=
  { c3in with
    fullArea := ⟨8, 8, 31, 31⟩
    decodedArea := ⟨0, 0, 7, 7⟩
    dscDecoded := some { header := { w := 8, h := 8, stride := 32,
                                     cf := ColorFormat.ARGB8888 },
                         data_size := 256, dataFreed := false }
    decodeOk := false }

/-- C3 witness: the theorem instantiated at `c3in` / `c3in2`. -/
theorem c3_second_call_no_work_witness :
    (decoder_get_area c3in2).ok = false ∧
    (decoder_get_area c3in2).events = [] ∧
    (decoder_get_area c3in2).dscDecoded = c3in2.dscDecoded ∧
    (decoder_get_area c3in2).decodedArea = c3in2.decodedArea ∧
    (decoder_get_area c3in2).jpg = c3in2.jpg :=
  c3_second_call_no_work c3in c3in2 (by decide) (by decide) (by decide) (by decide)

/-! ## Claim C4: failure of the decode pass -/

/-- C4 failing input: first call, subsampling `0x11`, request `(0,0)-(15,15)`,
both allocations succeed, `JPEG_decode` fails (`rc == 0`). -/
def c4in : GAIn := gaFirstCall jpg11 ⟨0, 0, 15, 15⟩ false 16

/-- C4: evaluating `decoder_get_area` at the failing input shows the failure
path of lines 133-136.  The call does return the failure result, and
`decoded->data` is freed — but `dsc->decoded` is left pointing at the decoded
structure (whose data pointer now dangles, `dataFreed = true`), the structure
allocated in this very call is never freed, and `decoded_area` keeps its
already-written rectangle (`y1 ≠ LV_COORD_MIN`), so a subsequent call reports
completion.  This contradicts the claim (and the symmetric cleanup the code
itself performs on the allocation-failure path at lines 103-108). -/
theorem c4_decode_failure_dangling :
    (decoder_get_area c4in).ok = false ∧
    (decoder_get_area c4in).dscDecoded =
      some { header := { w := 16, h := 16, stride := 32, cf := ColorFormat.L8 },
             data_size := 512, dataFreed := true } ∧
    Ev.freeStruct ∉ (decoder_get_area c4in).events ∧
    Ev.freeData ∈ (decoder_get_area c4in).events ∧
    (decoder_get_area c4in).events = [Ev.allocStruct, Ev.allocData, Ev.decode, Ev.freeData] ∧
    (decoder_get_area c4in).decodedArea.y1 ≠ LV_COORD_MIN := by
  decide

/-! ## Claim C5: file-handle discipline of `decoder_info` -/

/-- C5 failing input: a file whose first two bytes are `0x00 0x00`
(not the SOI marker `0xFFD8`). -/
def c5data : Nat → Nat := fun _ => 0

/-- C5: on a file source that opens successfully but does not start with
`0xFFD8`, `decoder_info` takes the final `return LV_RESULT_INVALID`
(line 259) without ever reaching the `lv_fs_close` call (lines 229-231, which
sit inside the SOI branch), so the handle it opened is leaked.  This refutes
the claim that the handle is closed on every exit path. -/
theorem c5_not_soi_leaks_handle :
    (decoder_info_file c5data 4 32 true).opened = true ∧
    (decoder_info_file c5data 4 32 true).closed = false ∧
    (decoder_info_file c5data 4 32 true).result = none := by
  decide

/-! ## Claim C8: `decoder_close` -/

/-- C8 state: a file-backed descriptor being closed with caching disabled
(`no_cache` set) while `dsc->decoded` still holds the decoded buffer. -/
def c8s : CloseSt :=
  { userData := true, srcIsFile := true, noCache := true,
    cacheDefSizeZero := false, dscDecodedSet := true }

/-- C8 counterexample: the first `decoder_close` frees the loaded file bytes
and the `JPEGIMAGE` and destroys the decoded buffer — but it never clears
`dsc->decoded`, and the destroy at line 372 is outside the
`if (decoder->user_data)` guard.  A second close on the already-closed
descriptor therefore invokes `lv_draw_buf_destroy(dsc->decoded)` again
(a second release of the same buffer), refuting the claim that a second
close is a no-op that releases nothing twice. -/
theorem c8_second_close_releases_again :
    (decoder_close c8s).2 = [CEv.freeFileData, CEv.freeJpg, CEv.destroyDecoded] ∧
    (decoder_close c8s).1.dscDecodedSet = true ∧
    (decoder_close (decoder_close c8s).1).2 = [CEv.destroyDecoded] ∧
    (decoder_close (decoder_close c8s).1).2 ≠ [] := by
  decide

/-- C8 (amended): `decoder_close` releases the loaded input bytes (for file
sources) and the `JPEGIMAGE` structure and nulls `decoder->user_data`; that
part is idempotent — a second close frees no decoder-owned resource and
changes no state.  But the decoded-buffer release (`lv_draw_buf_destroy` or
`lv_cache_release`) runs unconditionally on every call, so a second close is
not a complete no-op: it releases the still-referenced decoded buffer again. -/
theorem c8_close_partial_idempotence (s : CloseSt) (h : s.userData = true) :
    (s.srcIsFile = true → CEv.freeFileData ∈ (decoder_close s).2) ∧
    CEv.freeJpg ∈ (decoder_close s).2 ∧
    (decoder_close s).1.userData = false ∧
    (decoder_close (decoder_close s).1).1 = (decoder_close s).1 ∧
    CEv.freeJpg ∉ (decoder_close (decoder_close s).1).2 ∧
    CEv.freeFileData ∉ (decoder_close (decoder_close s).1).2 ∧
    (decoder_close (decoder_close s).1).2 =
      (if s.noCache || s.cacheDefSizeZero then [CEv.destroyDecoded]
       else [CEv.cacheRelease]) := by
  obtain ⟨u, f, n, z, d⟩ := s
  cases u
  · cases h
  · cases f <;> cases n <;> cases z <;> cases d <;> decide

/-- C8 witness: the amended theorem at a memory-backed, cache-enabled state. -/
def c8s2 : CloseSt :=
  { userData := true, srcIsFile := false, noCache := false,
    cacheDefSizeZero := false, dscDecodedSet := true }

/-- C8 witness: instantiation of the partial-idempotence theorem at `c8s2`. -/
theorem c8_close_partial_idempotence_witness :
    CEv.freeJpg ∈ (decoder_close c8s2).2 ∧
    (decoder_close c8s2).1.userData = false ∧
    (decoder_close (decoder_close c8s2).1).1 = (decoder_close c8s2).1 ∧
    CEv.freeJpg ∉ (decoder_close (decoder_close c8s2).1).2 :=
  let h := c8_close_partial_idempotence c8s2 (by decide)
  ⟨h.2.1, h.2.2.1, h.2.2.2.1, h.2.2.2.2.1⟩

/-! ## Claim C9: termination of the marker-scan loop -/

/-- A length field read through the window is a 16-bit quantity: each window
byte is below 256. -/
lemma motoshort_win_lt (data : Nat → Nat) (ws k : Nat) :
    motoshort (win data ws) k < 65536 := by
  unfold motoshort win
  have h1 : data (ws + k) % 256 < 256 := Nat.mod_lt _ (by norm_num)
  have h2 : data (ws + (k + 1)) % 256 < 256 := Nat.mod_lt _ (by norm_num)
  omega

/-- C9 (amended): for every stream whose length is at most `2^32 - 65537`,
the marker-scan loop terminates.  Below that bound a skip
`j += 2 + MOTOSHORT(...)` (at most `2 + 0xFFFF`) can never wrap the 32-bit
offset, so each resync step adds 2 to the window cursor `i` (bounded by 32 by
the loop condition) and each skip strictly increases `j` (bounded by the
stream length): `17*(size-j) + (32-i) + 1` steps of fuel always suffice and
`scanLoop` never exhausts its fuel.  For sizes within 65536 of `2^32` the
wrap defeats this argument — see the non-termination counterexample. -/
theorem scanLoop_terminates (data : Nat → Nat) (size : Nat)
    (hsize : size ≤ 4294901759) :
    ∀ fuel i j ws m, 17 * (size - j) + (32 - i) + 1 ≤ fuel →
      scanLoop data size fuel i j ws m ≠ none := by
  intro fuel
  induction fuel with
  | zero => intro i j ws m h; omega
  | succ f ih =>
    intro i j ws m h
    simp only [scanLoop]
    split
    · rename_i hc
      obtain ⟨hi, hm, hj⟩ := hc
      split
      · exact ih (i + 2) j ws _ (by omega)
      · split
        · simp
        · have hM := motoshort_win_lt data ws (i + 2)
          split
          · rename_i hj2
            exact ih 0 _ _ _ (by omega)
          · rename_i hj2
            exact ih i _ ws _ (by omega)
    · simp

/-- C9 witness: the termination bound instantiated for an all-zero 4-byte
stream at the scanner's start state (`i = 2`, `j = 2`). -/
theorem scanLoop_terminates_witness :
    scanLoop (fun _ => 0) 4 102 2 2 0 0 ≠ none :=
  scanLoop_terminates (fun _ => 0) 4 (by norm_num) 102 2 2 0 0 (by decide)

/-- C9 counterexample stream: the 4-byte pattern `FF E0 00 02` repeated.
Every window shows an invalid pair, then a valid APP0 marker `0xFFE0` whose
length field is 2, so the scan alternates one resync step with one 4-byte
skip.  With `iFileSize = 0xFFFFFFFF` the 32-bit offset `j` stays
`≡ 2 (mod 4)` (the skip wraps modulo `2^32`, a multiple of 4), while
`0xFFFFFFFF ≡ 3 (mod 4)`, so the exit test `j < iFileSize` never fails and
the loop cycles through the same offsets forever. -/
def c9data : Nat → Nat := fun k =>
  if k % 4 = 0 then 0xff
  else if k % 4 = 1 then 0xe0
  else if k % 4 = 2 then 0x00
  else 0x02

/-- The set of loop states the scan visits on `c9data` with stream size
`0xFFFFFFFF`: the two start states, then alternately "fresh window at offset
`j ≡ 2 (mod 4)`" and "after one resync step in that window". -/
def c9Inv (i j ws m : Nat) : Prop :=
  (i = 2 ∧ j = 2 ∧ ws = 0 ∧ m = 0) ∨
  (i = 4 ∧ j = 2 ∧ ws = 0 ∧ m = 0) ∨
  (i = 0 ∧ ws = j ∧ j % 4 = 2 ∧ j < 4294967295 ∧ m = 0xffe0) ∨
  (i = 2 ∧ ws = j ∧ j % 4 = 2 ∧ j < 4294967295 ∧ m = 0)

/-- Stepping from any state of the cycle consumes all the fuel: the loop on
`c9data` with size `0xFFFFFFFF` never exits. -/
lemma c9_loop_none : ∀ fuel i j ws m, c9Inv i j ws m →
    scanLoop c9data 4294967295 fuel i j ws m = none := by
  intro fuel
  induction fuel with
  | zero => intro i j ws m _; rfl
  | succ f ih =>
    rintro i j ws m
      (⟨hi, hj, hws, hm⟩ | ⟨hi, hj, hws, hm⟩ |
       ⟨hi, hws, hj4, hjlt, hm⟩ | ⟨hi, hws, hj4, hjlt, hm⟩)
    · subst hi; subst hj; subst hws; subst hm
      simp only [scanLoop]
      norm_num [win, c9data, motoshort, maskFFFC]
      exact ih 4 2 0 0 (Or.inr (Or.inl ⟨rfl, rfl, rfl, rfl⟩))
    · subst hi; subst hj; subst hws; subst hm
      simp only [scanLoop]
      norm_num [win, c9data, motoshort, maskFFFC]
      exact ih 0 6 6 65504
        (Or.inr (Or.inr (Or.inl ⟨rfl, rfl, by norm_num, by norm_num, rfl⟩)))
    · subst hi; subst hws; subst hm
      simp only [scanLoop]
      rw [if_pos ⟨by norm_num, by decide, hjlt⟩]
      have b0 : win c9data ws 0 = 0 := by
        simp [win, c9data, hj4]
      have b1 : win c9data ws 1 = 2 := by
        have h1 : (ws + 1) % 4 = 3 := by omega
        simp [win, c9data, h1]
      simp only [motoshort, maskFFFC]
      norm_num [b0, b1]
      exact ih 2 ws ws 0 (Or.inr (Or.inr (Or.inr ⟨rfl, rfl, hj4, hjlt, rfl⟩)))
    · subst hi; subst hws; subst hm
      simp only [scanLoop]
      rw [if_pos ⟨by norm_num, by decide, hjlt⟩]
      have b2 : win c9data ws 2 = 255 := by
        have h2 : (ws + 2) % 4 = 0 := by omega
        simp [win, c9data, h2]
      have b3 : win c9data ws 3 = 224 := by
        have h3 : (ws + 3) % 4 = 1 := by omega
        simp [win, c9data, h3]
      have b4 : win c9data ws 4 = 0 := by
        have h4 : (ws + 4) % 4 = 2 := by omega
        simp [win, c9data, h4]
      have b5 : win c9data ws 5 = 2 := by
        have h5 : (ws + 5) % 4 = 3 := by omega
        simp [win, c9data, h5]
      simp only [motoshort, maskFFFC]
      norm_num [b2, b3, b4, b5]
      split
      · rename_i hlt
        exact ih 0 _ _ _
          (Or.inr (Or.inr (Or.inl ⟨rfl, rfl, by omega, hlt, rfl⟩)))
      · rename_i hge
        exfalso
        apply hge
        omega

/-- C9 counterexample: the claim "no input can make the loop run without
bound" is false for the program's own types.  At the crafted stream `c9data`
with the representable `uint32_t` size `0xFFFFFFFF`, the marker-scan loop
started from `decoder_info`'s start state (`i = 2`, `j = 2`) never produces a
result, however much fuel it is given: the 32-bit offset `j` wraps modulo
`2^32` past the end-of-stream check and revisits earlier offsets forever. -/
theorem c9_wrap_nonterminating :
    ¬ ∃ fuel, scanLoop c9data 4294967295 fuel 2 2 0 0 ≠ none := by
  rintro ⟨fuel, hf⟩
  exact hf (c9_loop_none fuel 2 2 0 0 (Or.inl ⟨rfl, rfl, rfl, rfl⟩))

/-! ## Claim C2: SOF payload parsing -/

/-- C2: whenever the marker scan locates the baseline SOF0 marker at cursor
`st.i` of the window read from offset `st.ws`, `decoder_info` returns
`LV_RESULT_OK` with height read as the big-endian 16-bit value at SOF payload
bytes 1-2, width as the big-endian 16-bit value at payload bytes 3-4
(the payload starts 4 bytes after the marker: 2 marker bytes plus the 2-byte
length field), and the color format computed from the effective
bits-per-pixel `payload[0] * payload[5]` (bits per sample times component
count); width and height land in the header exactly as read. -/
theorem c2_sof_payload (data : Nat → Nat) (size depth : Nat) (st : ScanSt)
    (hsoi : win data 0 0 = 0xff ∧ win data 0 1 = 0xd8)
    (hscan : scanLoop data size (scanFuel size) 2 2 0 0 = some st)
    (hfound : st.m = 0xffc0)
    (hexact : motoshort (win data st.ws) st.i = 0xffc0) :
    decoder_info_mem data size depth =
      some { w := win data st.ws (st.i + 4 + 3) * 256 + win data st.ws (st.i + 4 + 4)
             h := win data st.ws (st.i + 4 + 1) * 256 + win data st.ws (st.i + 4 + 2)
             cf := formatOf (win data st.ws (st.i + 4 + 0) * win data st.ws (st.i + 4 + 5)) depth
             stride := (win data st.ws (st.i + 4 + 3) * 256 + win data st.ws (st.i + 4 + 4))
                         * (depth / 8) } := by
  unfold decoder_info_mem infoAfterSOI
  rw [if_pos hsoi, hscan]
  unfold motoshort at hexact
  simp only [hfound, motoshort, hexact, if_pos rfl]
  simp [Nat.add_assoc]

/-- C2 witness input: a minimal in-memory stream `FFD8` followed directly by
an SOF0 segment declaring bits-per-sample 8, height 8, width 8, 1 component. -/
def c2data : Nat → Nat := fun k =>
  [0xff, 0xd8, 0xff, 0xc0, 0x00, 0x11, 0x08, 0x00, 0x08, 0x00, 0x08, 0x01].getD k 0

/-- C2 witness: the payload theorem instantiated at `c2data` (the scan finds
SOF0 at cursor 2 of the window read from offset 0). -/
theorem c2_sof_payload_witness :
    decoder_info_mem c2data 12 32 =
      some { w := 8, h := 8, cf := ColorFormat.L8, stride := 32 } :=
  c2_sof_payload c2data 12 32 ⟨2, 2, 0, 0xffc0⟩
    (by decide) (by decide) (by decide) (by decide)

/-! ## Claim C6: non-baseline SOF variants are rejected -/

/-- C6: the scan's SOF test masks the low two bits (`& 0xfffc`), so the SOF
variants `0xFFC1`-`0xFFC3` (e.g. progressive `0xFFC2`) stop the scan exactly
like SOF0; the unmasked re-read at line 241 then fails the
`iMarker != 0xffc0` check (lines 242-245) and `decoder_info` returns
`LV_RESULT_INVALID` — never a successful header. -/
theorem c6_variant_rejected (data : Nat → Nat) (size depth : Nat) (st : ScanSt)
    (hsoi : win data 0 0 = 0xff ∧ win data 0 1 = 0xd8)
    (hscan : scanLoop data size (scanFuel size) 2 2 0 0 = some st)
    (hfound : st.m = 0xffc0)
    (hvariant : motoshort (win data st.ws) st.i ≠ 0xffc0) :
    decoder_info_mem data size depth = none := by
  unfold decoder_info_mem infoAfterSOI
  rw [if_pos hsoi, hscan]
  simp only [hfound, if_pos rfl, if_neg hvariant]
  simp

/-- C6 witness input: as `c2data` but with the progressive SOF2 marker
`0xFFC2` in place of SOF0. -/
def c6data : Nat → Nat := fun k =>
  [0xff, 0xd8, 0xff, 0xc2, 0x00, 0x11, 0x08, 0x00, 0x08, 0x00, 0x08, 0x01].getD k 0

/-- C6 witness: a progressive (SOF2) stream is rejected. -/
theorem c6_variant_rejected_witness :
    decoder_info_mem c6data 12 32 = none :=
  c6_variant_rejected c6data 12 32 ⟨2, 2, 0, 0xffc0⟩
    (by decide) (by decide) (by decide) (by decide)

/-! ## Claim C7: color-format selection -/

/-- When the scan found the exact SOF0 marker, `decoder_info` returns the
header built at lines 236-256, with the color format given by `formatOf` on
the effective bits-per-pixel. -/
lemma info_found_eq (data : Nat → Nat) (size depth : Nat) (st : ScanSt)
    (hsoi : win data 0 0 = 0xff ∧ win data 0 1 = 0xd8)
    (hscan : scanLoop data size (scanFuel size) 2 2 0 0 = some st)
    (hfound : st.m = 0xffc0)
    (hexact : motoshort (win data st.ws) st.i = 0xffc0) :
    decoder_info_mem data size depth =
      some { w := motoshort (win data st.ws) (st.i + 7)
             h := motoshort (win data st.ws) (st.i + 5)
             cf := formatOf (win data st.ws (st.i + 4) * win data st.ws (st.i + 9)) depth
             stride := motoshort (win data st.ws) (st.i + 7) * (depth / 8) } := by
  unfold decoder_info_mem infoAfterSOI
  rw [if_pos hsoi, hscan]
  unfold motoshort at hexact
  simp only [hfound, motoshort, hexact, if_pos rfl]
  simp

/-- C7: for every successfully scanned image, the color format reported by
`decoder_info` is exactly `formatOf` applied to the effective bits-per-pixel
(bits per sample times component count, the window bytes at `i+4` and `i+9`)
and the host `LV_COLOR_DEPTH`: grayscale when the bpp is 8 or the host depth
is 8, RGB565 when otherwise the depth is 16, and 32-bit ARGB in all
remaining cases. -/
theorem c7_color_format (data : Nat → Nat) (size depth : Nat) (st : ScanSt)
    (hdr : Header)
    (hscan : scanLoop data size (scanFuel size) 2 2 0 0 = some st)
    (hok : decoder_info_mem data size depth = some hdr) :
    hdr.cf = formatOf (win data st.ws (st.i + 4) * win data st.ws (st.i + 9)) depth ∧
    ((win data st.ws (st.i + 4) * win data st.ws (st.i + 9) = 8 ∨ depth = 8) →
      hdr.cf = ColorFormat.L8) ∧
    (win data st.ws (st.i + 4) * win data st.ws (st.i + 9) ≠ 8 → depth ≠ 8 →
      depth = 16 → hdr.cf = ColorFormat.RGB565) ∧
    (win data st.ws (st.i + 4) * win data st.ws (st.i + 9) ≠ 8 → depth ≠ 8 →
      depth ≠ 16 → hdr.cf = ColorFormat.ARGB8888) := by
  have hcf : hdr.cf =
      formatOf (win data st.ws (st.i + 4) * win data st.ws (st.i + 9)) depth := by
    by_cases hsoi : win data 0 0 = 0xff ∧ win data 0 1 = 0xd8
    · by_cases hfound : st.m = 0xffc0
      · by_cases hexact : motoshort (win data st.ws) st.i = 0xffc0
        · rw [info_found_eq data size depth st hsoi hscan hfound hexact] at hok
          injection hok with h
          rw [← h]
        · unfold decoder_info_mem infoAfterSOI at hok
          rw [if_pos hsoi, hscan] at hok
          dsimp only [] at hok
          rw [if_pos hfound, if_neg hexact] at hok
          exact Option.noConfusion hok
      · unfold decoder_info_mem infoAfterSOI at hok
        rw [if_pos hsoi, hscan] at hok
        dsimp only [] at hok
        rw [if_neg hfound] at hok
        exact Option.noConfusion hok
    · unfold decoder_info_mem at hok
      rw [if_neg hsoi] at hok
      exact Option.noConfusion hok
  refine ⟨hcf, ?_, ?_, ?_⟩
  · intro h8
    rw [hcf]
    unfold formatOf
    rw [if_pos h8]
  · intro hb hd h16
    rw [hcf]
    unfold formatOf
    rw [if_neg (by tauto), if_pos h16]
  · intro hb hd h16
    rw [hcf]
    unfold formatOf
    rw [if_neg (by tauto), if_neg h16]

/-- C7 witness input: an SOF0 stream with bits-per-sample 8 and 3 components
(effective 24 bpp). -/
def c7data : Nat → Nat := fun k =>
  [0xff, 0xd8, 0xff, 0xc0, 0x00, 0x11, 0x08, 0x00, 0x10, 0x00, 0x20, 0x03].getD k 0

/-- C7 witness: on a 16-bit host a 24-bpp scan reports RGB565, matching
`formatOf`. -/
theorem c7_color_format_witness :
    (Header.mk 32 16 ColorFormat.RGB565 64).cf =
      formatOf (win c7data 0 (2 + 4) * win c7data 0 (2 + 9)) 16 :=
  (c7_color_format c7data 12 16 ⟨2, 2, 0, 0xffc0⟩
    (Header.mk 32 16 ColorFormat.RGB565 64) (by decide) (by decide)).1

/-! ## Claim C10: window indices read by the scan -/

/-- C10 failing input: `FFD8`, 28 junk zero bytes (forcing resync steps up to
cursor 30), a skippable APP0 marker `0xFFE0` at window offsets 30-31, stream
length 4. -/
def c10data : Nat → Nat := fun k =>
  if k = 0 then 0xff else if k = 1 then 0xd8
  else if k = 30 then 0xff else if k = 31 then 0xe0 else 0

/-- C10: at the failing input the resync loop reaches cursor `i = 30`, finds
the valid marker `0xFFE0` there and reads its length field at `cBuf[i+2]` and
`cBuf[i+3]` — window indices 32 and 33, past the end of the 32-byte
`cBuf[32]` stack buffer.  So the scan's window reads are **not** all below 32
and the out-of-range accesses are reachable, refuting the claim. -/
theorem c10_window_overread :
    32 ∈ infoWindowReads c10data 4 ∧ 33 ∈ infoWindowReads c10data 4 ∧
    ¬ (∀ k ∈ infoWindowReads c10data 4, k < 32) := by
  decide
